import Mathlib

/-!
Shallow embedding of `src/osdep/LinuxNetLink.cpp` (the rtnetlink
agent of this repository) and proofs about it.

Machine integers are modelled as `Nat`/`Int`; byte buffers as `List Nat`;
the kernel-facing socket calls are abstracted into their observable data
(the sequence of received datagrams, the request message that would be
sent).  Netlink protocol constants are transcribed from the Linux uapi
headers the source includes.
-/

namespace InfinityTier

/-! ## Netlink protocol constants (linux/netlink.h, linux/rtnetlink.h) -/

def NLMSG_NOOP : Nat := 1
def NLMSG_ERROR : Nat := 2
def NLMSG_DONE : Nat := 3
def NLMSG_OVERRUN : Nat := 4

def NLM_F_REQUEST : Nat := 1
def NLM_F_MULTI : Nat := 2
def NLM_F_ACK : Nat := 4
def NLM_F_EXCL : Nat := 0x200
def NLM_F_CREATE : Nat := 0x400

def RTM_NEWLINK : Nat := 16
def RTM_DELLINK : Nat := 17
def RTM_NEWADDR : Nat := 20
def RTM_DELADDR : Nat := 21
def RTM_NEWROUTE : Nat := 24
def RTM_DELROUTE : Nat := 25

def RTA_DST : Nat := 1
def RTA_SRC : Nat := 2
def RTA_OIF : Nat := 4
def RTA_GATEWAY : Nat := 5

def IFA_ADDRESS : Nat := 1
def IFA_LOCAL : Nat := 2
def IFA_LABEL : Nat := 3
def IFA_BROADCAST : Nat := 4

def AF_INET : Nat := 2
def AF_INET6 : Nat := 10

def RT_TABLE_MAIN : Nat := 254
def RTPROT_STATIC : Nat := 4
def RT_SCOPE_UNIVERSE : Nat := 0
def RTN_UNICAST : Nat := 1
def IFA_F_PERMANENT : Nat := 0x80

/-- Constant IFNAMSIZ from net/if.h: capacity of the `ifname` buffer in
`LinuxNetLink::_linkAdded` (src/osdep/LinuxNetLink.cpp:367). -/
def IFNAMSIZ : Nat := 16

/-- sizeof(struct nlmsghdr) = NLMSG_HDRLEN on Linux (already 4-aligned). -/
def NLMSG_HDRLEN : Nat := 16

/-- sizeof(struct rtmsg). -/
def sizeof_rtmsg : Nat := 12

/-- sizeof(struct ifaddrmsg). -/
def sizeof_ifaddrmsg : Nat := 8

/-- sizeof(struct in_addr). -/
def sizeof_in_addr : Nat := 4

/-- sizeof(struct in6_addr). -/
def sizeof_in6_addr : Nat := 16

/-- sizeof(int). -/
def sizeof_int : Nat := 4

/-- Macro RTA_ALIGN: `(l + 3) & ~3`, round up to the 4-byte attribute
alignment boundary. -/
def rtaAlign (l : Nat) : Nat := (l + 3) / 4 * 4

/-- Macro RTA_LENGTH: `RTA_ALIGN(sizeof(struct rtattr)) + len = 4 + len`. -/
def rtaLength (len : Nat) : Nat := 4 + len

/-- Macro NLMSG_LENGTH: `len + NLMSG_HDRLEN`. -/
def nlmsgLength (len : Nat) : Nat := len + NLMSG_HDRLEN

/-! ## Byte-level copy primitives

`_linkAdded` fills `char ifname[IFNAMSIZ] = {0}` by
`memcpy(ifname, ptr, strlen(ptr))` where `ptr` is the IFLA_IFNAME
attribute payload supplied by the kernel
(src/osdep/LinuxNetLink.cpp:381-383). -/

/-- C `strlen` on a byte sequence: number of bytes before the first NUL. -/
def strlenBytes : List Nat → Nat
  | [] => 0
  | b :: t => if b = 0 then 0 else 1 + strlenBytes t

/-- Model of `memcpy(dst, src, n)` where `dst` is a buffer whose declared capacity is
`dst.length`: the first `n` bytes of `src` land at the start of the
destination region.  When `n > dst.length` the write continues past the end
of the destination object, which the model makes observable as a result
longer than the destination. -/
def memcpyFixed (dst src : List Nat) (n : Nat) : List Nat :=
  src.take n ++ dst.drop n

/-- The `ifname` buffer of `LinuxNetLink::_linkAdded` after the
`IFLA_IFNAME` arm of the attribute walk ran on a payload `payload`:
destination `char ifname[IFNAMSIZ] = {0}`, copy length `strlen(ptr)`
(src/osdep/LinuxNetLink.cpp:367,381-383). -/
def linkAddedIfnameBuf (payload : List Nat) : List Nat :=
  memcpyFixed (List.replicate IFNAMSIZ 0) payload (strlenBytes payload)

/-! ## The transaction receive loop `LinuxNetLink::_doRecv`
(src/osdep/LinuxNetLink.cpp:104-176)

One `recv` call is abstracted as a `Chunk`: the number of bytes returned
(`size > 0`) together with the type and flags of the netlink header at the
start of the received bytes (the code inspects only that first header,
`nlp = (struct nlmsghdr *)p`).  `doRecv` consumes a list of such chunks —
the datagrams the kernel would deliver in order — and reports how many
`recv` calls returned data and, when `_processMessage` was invoked, the
buffer offset and byte count passed to it. -/

structure Chunk where
  ctype : Nat
  cflags : Nat
  size : Nat
  deriving DecidableEq

structure RecvOutcome where
  /-- number of `recv` calls that returned data before the loop ended -/
  recvCalls : Nat
  /-- `some (offset, nll)` when `_processMessage(buf + offset, nll)` ran -/
  processed : Option (Nat × Nat)
  deriving DecidableEq

/-- Body of the `for(;;)` loop of `_doRecv`, transcribed branch by branch
(src/osdep/LinuxNetLink.cpp:118-171).  `p` is the current write offset in
the buffer and `nll` the accumulated byte count, both 0 on entry.  In the
source, every branch of the loop body ends in `break` — the multi-part arm
updates `p` and `nll` (lines 148-149) and then falls through to the
unconditional `nll += rtn; _processMessage(nlp, nll); break;`
(lines 161-167) — so the remaining datagrams are never received. -/
def doRecvGo (chunks : List Chunk) (p nll : Nat) : RecvOutcome :=
  match chunks with
  | [] =>
    -- recv returned <= 0: break
    { recvCalls := 0, processed := none }
  | c :: _rest =>
    -- rtn := c.size, nlp := (struct nlmsghdr *)p
    if c.ctype = NLMSG_ERROR ∧ ¬((c.cflags &&& NLM_F_ACK) = NLM_F_ACK) then
      { recvCalls := 1, processed := none }
    else if c.ctype = NLMSG_NOOP then
      { recvCalls := 1, processed := none }
    else if c.ctype = NLMSG_DONE then
      -- inside the (NLM_F_MULTI || NLMSG_DONE) block
      { recvCalls := 1, processed := some (p, nll) }
    else
      -- multi-part arm: p += rtn; nll += rtn; then fall through
      let nll1 := if (c.cflags &&& NLM_F_MULTI) = NLM_F_MULTI then nll + c.size else nll
      if c.ctype = NLMSG_OVERRUN then
        { recvCalls := 1, processed := none }
      else
        -- nll += rtn; _processMessage(nlp, nll); break
        { recvCalls := 1, processed := some (p, nll1 + c.size) }

/-- Function `LinuxNetLink::_doRecv` on the sequence of datagrams the socket would
deliver: starts with `p = buf`, `nll = 0`. -/
def doRecv (chunks : List Chunk) : RecvOutcome :=
  doRecvGo chunks 0 0

/-! ## Failure taxonomy

Every checked failure site in src/osdep/LinuxNetLink.cpp and the action the
code takes there. -/

inductive FailureSite where
  /-- `bind` of the long-lived monitor socket in the constructor
  (lines 71-74) -/
  | constructorBind
  /-- `valloc` returning NULL in `_doRecv` (lines 106-110) -/
  | recvAlloc
  /-- `recv` returning <= 0 (timeout or error, line 119/168) -/
  | recvTimeoutOrError
  /-- `NLMSG_OVERRUN` frame in `_doRecv` (lines 152-159) -/
  | recvOverrun
  /-- `socket()` returning -1 in the dump/mutation functions
  (e.g. lines 436-439, 595-598) -/
  | ephemeralSocketCreate
  /-- `bind` failure on an ephemeral socket (e.g. lines 447-451, 607-611) -/
  | ephemeralBind
  /-- interface name not resolving to an index in `addAddress` /
  `removeAddress` (lines 858-862, 970-974) -/
  | interfaceResolve
  deriving DecidableEq

inductive FailureAction where
  | exitProcess
  | logAndContinue
  deriving DecidableEq

/-- Action the source takes at each failure site: `::exit(1)` at the
constructor bind (line 73) and at the `valloc` failure in `_doRecv`
(line 109); every other site prints to stderr (or is silent) and returns /
continues the loop. -/
def failureAction : FailureSite → FailureAction
  | .constructorBind => .exitProcess
  | .recvAlloc => .exitProcess
  | .recvTimeoutOrError => .logAndContinue
  | .recvOverrun => .logAndContinue
  | .ephemeralSocketCreate => .logAndContinue
  | .ephemeralBind => .logAndContinue
  | .interfaceResolve => .logAndContinue

/-! ## The `InetAddress` value type

The class itself lives outside this repository (the spec lists it among the
external collaborators: "a general-purpose IP-address value type providing
family, prefix-length, broadcast-address derivation and string
parsing/formatting"); only the narrow interface the netlink code consumes
is modelled here. -/

/-- Modelled from the spec: the external IP-address value type
(`InetAddress`, not in src/) as consumed by LinuxNetLink.cpp: validity test
(`operator bool`), family test (`isV4` / `ss_family`), prefix length
(`netmaskBits`), and the raw in_addr / in6_addr bytes accessed through the
sockaddr casts. -/
structure InetAddress where
  valid : Bool
  isV4 : Bool
  /-- the 4 (v4) or 16 (v6) address bytes behind `sin_addr` / `sin6_addr` -/
  addrBytes : List Nat
  /-- prefix length, `netmaskBits()` -/
  maskBits : Nat
  deriving DecidableEq

/-- Field `ss_family` of the sockaddr storage. -/
def InetAddress.family (a : InetAddress) : Nat :=
  if a.isV4 then AF_INET else AF_INET6

/-- Modelled from the spec: `InetAddress::port()`, which for this value
type stores the prefix length ("sets prefix length from the address" in
`addAddress`, src/osdep/LinuxNetLink.cpp:913). -/
def InetAddress.port (a : InetAddress) : Nat := a.maskBits

/-- Byte `i` of a v4 netmask of `bits` leading one bits. -/
def v4MaskByte (bits i : Nat) : Nat :=
  let r := if 8 * (i + 1) ≤ bits then 8 else if bits ≤ 8 * i then 0 else bits - 8 * i
  256 - 2 ^ (8 - r)

/-- Modelled from the spec: `InetAddress::broadcast()` — "broadcast-address
derivation" of the external address type: defined (valid) only for v4,
where it sets all host bits of the address. -/
def InetAddress.broadcast (a : InetAddress) : InetAddress :=
  if a.isV4 then
    { valid := true
      isV4 := true
      addrBytes := (List.range 4).map (fun i => a.addrBytes.getD i 0 ||| (255 - v4MaskByte a.maskBits i))
      maskBits := a.maskBits }
  else
    { valid := false, isV4 := false, addrBytes := [], maskBits := 0 }

/-! ## The interface cache

`_interfaces` is a `Hashtable<int, iface_entry>` (the container is an
external collaborator; modelled as an association list in iteration
order).  The `iface_entry` struct is declared in LinuxNetLink.hpp, which is
not under src/. -/

/-- Modelled from the spec: the InterfaceRecord / `iface_entry` struct
(declared in the missing LinuxNetLink.hpp): `index` (kernel-assigned
integer key), `name`, 6-byte hardware address, `mtu`.  The fields are
exactly the ones `_linkAdded` assigns (src/osdep/LinuxNetLink.cpp:393-398);
the human-readable `mac` string derived from `mac_bin` by `snprintf` is
omitted as redundant formatting of `mac_bin`. -/
structure IfaceEntry where
  index : Int
  ifacename : String
  mac_bin : List Nat
  mtu : Nat
  deriving DecidableEq

/-- The interface map in iteration order. -/
abbrev IfMap := List (Int × IfaceEntry)

/-- Operation `Hashtable::contains`. -/
def htContains (m : IfMap) (k : Int) : Bool :=
  m.any (fun p => p.1 == k)

/-- Keyed lookup in the map model. -/
def htLookup (m : IfMap) (k : Int) : Option IfaceEntry :=
  match m with
  | [] => none
  | p :: t => if p.1 = k then some p.2 else htLookup t k

/-- Operation `Hashtable::erase k`: the entry keyed `k` is removed. -/
def htErase (m : IfMap) (k : Int) : IfMap :=
  m.filter (fun p => !(p.1 == k))

/-- Effect of `_interfaces[k]` followed by assigning every field of the returned
reference (`operator[]` inserts a default entry when the key is absent, so
the combined effect is insert-or-overwrite at key `k`). -/
def htSet (m : IfMap) (k : Int) (v : IfaceEntry) : IfMap :=
  if htContains m k then m.map (fun p => if p.1 = k then (k, v) else p)
  else m ++ [(k, v)]

/-- Function `LinuxNetLink::_indexForInterface` (src/osdep/LinuxNetLink.cpp:1061-1075):
linear scan of the interface map, returning the `index` field of the first
entry whose `ifacename` compares equal, or -1. -/
def indexForInterface (m : IfMap) (iface : String) : Int :=
  match m with
  | [] => -1
  | (_, v) :: t => if v.ifacename = iface then v.index else indexForInterface t iface

/-! ## Notification messages and their dispatch

Messages are modelled in already-decoded form: the fields the handlers
extract from the fixed header and the attribute walk. -/

/-- A link (RTM_NEWLINK / RTM_DELLINK) notification, decoded: interface
index from `ifinfomsg`, and the name / MAC / MTU recovered from the
IFLA_IFNAME, IFLA_ADDRESS and IFLA_MTU attributes. -/
structure LinkMsg where
  ifi_index : Int
  ifname : String
  mac_bin : List Nat
  mtu : Nat

/-- An address (RTM_NEWADDR / RTM_DELADDR) notification, decoded:
family plus the IFA_ADDRESS / IFA_LOCAL / IFA_LABEL / IFA_BROADCAST
attribute payloads. -/
structure AddrMsg where
  ifa_family : Nat
  attrs : List (Nat × List Nat)

/-- A route (RTM_NEWROUTE / RTM_DELROUTE) notification, decoded: family,
destination prefix length, and the RTA_* attribute payloads. -/
structure RouteMsg where
  rtm_family : Nat
  rtm_dst_len : Nat
  attrs : List (Nat × List Nat)

/-- One decoded netlink notification, classified by `nlmsg_type` as in the
dispatch switch of `_processMessage` (src/osdep/LinuxNetLink.cpp:191-219). -/
inductive NlMsg where
  | newlink (lm : LinkMsg)
  | dellink (lm : LinkMsg)
  | newaddr (am : AddrMsg)
  | deladdr (am : AddrMsg)
  | newroute (rm : RouteMsg)
  | delroute (rm : RouteMsg)
  | other

/-- Modelled from the spec: the RouteRecord element type of the
`RouteList` collections (`_routes_ipv4` / `_routes_ipv6`); its definition
lives in headers not under src/.  No code path in LinuxNetLink.cpp ever
constructs or removes one. -/
structure RouteRecord where
  destBytes : List Nat
  prefixLen : Nat
  gateway : Option (List Nat)
  source : Option (List Nat)
  ifindex : Option Int
  family : Nat
  deriving DecidableEq

/-- The shared caches of the core: the two route collections and the
interface map (`_routes_ipv4`, `_routes_ipv6`, `_interfaces`). -/
structure NetLinkState where
  routes_ipv4 : List RouteRecord
  routes_ipv6 : List RouteRecord
  interfaces : IfMap

/-- Cache update of `LinuxNetLink::_linkAdded`
(src/osdep/LinuxNetLink.cpp:391-399): under the `_if_m` lock, take the
entry reference `_interfaces[ifi_index]` and overwrite its `index`,
`ifacename`, `mac` / `mac_bin` and `mtu` fields with the decoded values. -/
def linkAdded (m : IfMap) (lm : LinkMsg) : IfMap :=
  htSet m lm.ifi_index
    { index := lm.ifi_index, ifacename := lm.ifname, mac_bin := lm.mac_bin, mtu := lm.mtu }

/-- Cache update of `LinuxNetLink::_linkDeleted`
(src/osdep/LinuxNetLink.cpp:425-430): under the `_if_m` lock, erase the
entry keyed by the interface index when present. -/
def linkDeleted (m : IfMap) (lm : LinkMsg) : IfMap :=
  if htContains m lm.ifi_index then htErase m lm.ifi_index else m

/-- Handler `LinuxNetLink::_routeAdded` (src/osdep/LinuxNetLink.cpp:289-324):
decodes the RTA_DST / RTA_SRC / RTA_GATEWAY / RTA_OIF attributes into
stack-local strings (`dsts`, `gws`, `srcs`, `ifs`, `ms`) that feed only the
(compiled-out) trace statement; no member of the object is read or
written. -/
def routeAdded (s : NetLinkState) (_rm : RouteMsg) : NetLinkState := s

/-- Handler `LinuxNetLink::_routeDeleted` (src/osdep/LinuxNetLink.cpp:326-361):
same decode-into-locals shape as `_routeAdded`; no member of the object is
read or written. -/
def routeDeleted (s : NetLinkState) (_rm : RouteMsg) : NetLinkState := s

/-- Handler `LinuxNetLink::_ipAddressAdded` (src/osdep/LinuxNetLink.cpp:221-253):
decodes the IFA_* attributes into stack-local strings for tracing; no
member of the object is read or written. -/
def ipAddressAdded (s : NetLinkState) (_am : AddrMsg) : NetLinkState := s

/-- Handler `LinuxNetLink::_ipAddressDeleted` (src/osdep/LinuxNetLink.cpp:255-287):
same shape as `_ipAddressAdded`; no member of the object is read or
written. -/
def ipAddressDeleted (s : NetLinkState) (_am : AddrMsg) : NetLinkState := s

/-- The dispatch switch of `LinuxNetLink::_processMessage`
(src/osdep/LinuxNetLink.cpp:191-219) applied to one decoded message. -/
def processMessage (s : NetLinkState) : NlMsg → NetLinkState
  | .newlink lm => { s with interfaces := linkAdded s.interfaces lm }
  | .dellink lm => { s with interfaces := linkDeleted s.interfaces lm }
  | .newaddr am => ipAddressAdded s am
  | .deladdr am => ipAddressDeleted s am
  | .newroute rm => routeAdded s rm
  | .delroute rm => routeDeleted s rm
  | .other => s

/-! ## Outgoing request construction -/

/-- One `struct rtattr` written into the request buffer: type code, the
`rta_len` field the code stores (always `RTA_LENGTH(payload size)`), and
the payload bytes `memcpy`ed to `RTA_DATA`. -/
structure RtAttr where
  rta_type : Nat
  rta_len : Nat
  payload : List Nat
  deriving DecidableEq

/-- The 4 little-endian bytes of a C `int` value, as `memcpy(&v, sizeof(int))`
lays them out on the wire. -/
def int32bytes (i : Int) : List Nat :=
  let n := (i.emod (2 ^ 32)).toNat
  [n % 256, n / 2 ^ 8 % 256, n / 2 ^ 16 % 256, n / 2 ^ 24 % 256]

/-- The observable content of a `struct nl_route_req` as `addRoute` /
`delRoute` populate it: the outer `nlmsghdr` fields (the fresh sequence
number `++_seq` is omitted), the fixed `struct rtmsg` header, and the
attribute stream written into `buf`. -/
structure NlRouteReq where
  nlmsg_len : Nat
  nlmsg_type : Nat
  nlmsg_flags : Nat
  nlmsg_pid : Nat
  rtm_family : Nat
  rtm_table : Nat
  rtm_protocol : Nat
  rtm_scope : Nat
  rtm_type : Nat
  rtm_dst_len : Nat
  rtm_src_len : Nat
  rtm_flags : Nat
  attrs : List RtAttr
  deriving DecidableEq

/-- Function `LinuxNetLink::addRoute` (src/osdep/LinuxNetLink.cpp:590-704), reduced
to the request it builds: `none` when the `if (!target) return;` guard
fires (socket lifecycle failures are covered by `failureAction`).  The
attribute stream and the running length `rtl` are transcribed branch by
branch; note that the source's `else if (src)` branch (lines 646-658)
writes the RTA_SRC attribute and sets `rtm_src_len` but — unlike the `via`
branch — contains no `rtl += rtap->rta_len;`. -/
def addRoute (target via src : InetAddress) (ifaceName : Option String) (m : IfMap) :
    Option NlRouteReq :=
  if !target.valid then none
  else
    -- int rtl = sizeof(struct rtmsg);
    let rtl0 := sizeof_rtmsg
    let dstAttr : RtAttr :=
      if target.isV4 then ⟨RTA_DST, rtaLength sizeof_in_addr, target.addrBytes⟩
      else ⟨RTA_DST, rtaLength sizeof_in6_addr, target.addrBytes⟩
    let rtl1 := rtl0 + dstAttr.rta_len
    let gwSrcAttrs : List RtAttr :=
      if via.valid then
        [if via.isV4 then ⟨RTA_GATEWAY, rtaLength sizeof_in_addr, via.addrBytes⟩
         else ⟨RTA_GATEWAY, rtaLength sizeof_in6_addr, via.addrBytes⟩]
      else if src.valid then
        [if src.isV4 then ⟨RTA_SRC, rtaLength sizeof_in_addr, src.addrBytes⟩
         else ⟨RTA_SRC, rtaLength sizeof_in6_addr, src.addrBytes⟩]
      else []
    let rtl2 :=
      if via.valid then
        rtl1 + (if via.isV4 then rtaLength sizeof_in_addr else rtaLength sizeof_in6_addr)
      else rtl1
    let srcLen := if !via.valid && src.valid then src.maskBits else 0
    let oifAttrs : List RtAttr :=
      match ifaceName with
      | none => []
      | some n =>
        let idx := indexForInterface m n
        if idx ≠ -1 then [⟨RTA_OIF, rtaLength sizeof_int, int32bytes idx⟩] else []
    let rtl3 := rtl2 + (oifAttrs.map RtAttr.rta_len).sum
    some
      { nlmsg_len := nlmsgLength rtl3
        nlmsg_type := RTM_NEWROUTE
        nlmsg_flags := NLM_F_REQUEST ||| NLM_F_EXCL ||| NLM_F_CREATE ||| NLM_F_ACK
        nlmsg_pid := 0
        rtm_family := target.family
        rtm_table := RT_TABLE_MAIN
        rtm_protocol := RTPROT_STATIC
        rtm_scope := RT_SCOPE_UNIVERSE
        rtm_type := RTN_UNICAST
        rtm_dst_len := target.maskBits
        rtm_src_len := srcLen
        rtm_flags := 0
        attrs := dstAttr :: (gwSrcAttrs ++ oifAttrs) }

/-- Function `LinuxNetLink::delRoute` (src/osdep/LinuxNetLink.cpp:706-819), reduced
to the request it builds.  The body mirrors `addRoute` line for line
(including the missing `rtl +=` in the RTA_SRC branch, lines 761-773); the
only differences in the populated request are `nlmsg_type = RTM_DELROUTE`
and `nlmsg_flags = NLM_F_REQUEST` (line 786-788). -/
def delRoute (target via src : InetAddress) (ifaceName : Option String) (m : IfMap) :
    Option NlRouteReq :=
  if !target.valid then none
  else
    let rtl0 := sizeof_rtmsg
    let dstAttr : RtAttr :=
      if target.isV4 then ⟨RTA_DST, rtaLength sizeof_in_addr, target.addrBytes⟩
      else ⟨RTA_DST, rtaLength sizeof_in6_addr, target.addrBytes⟩
    let rtl1 := rtl0 + dstAttr.rta_len
    let gwSrcAttrs : List RtAttr :=
      if via.valid then
        [if via.isV4 then ⟨RTA_GATEWAY, rtaLength sizeof_in_addr, via.addrBytes⟩
         else ⟨RTA_GATEWAY, rtaLength sizeof_in6_addr, via.addrBytes⟩]
      else if src.valid then
        [if src.isV4 then ⟨RTA_SRC, rtaLength sizeof_in_addr, src.addrBytes⟩
         else ⟨RTA_SRC, rtaLength sizeof_in6_addr, src.addrBytes⟩]
      else []
    let rtl2 :=
      if via.valid then
        rtl1 + (if via.isV4 then rtaLength sizeof_in_addr else rtaLength sizeof_in6_addr)
      else rtl1
    let srcLen := if !via.valid && src.valid then src.maskBits else 0
    let oifAttrs : List RtAttr :=
      match ifaceName with
      | none => []
      | some n =>
        let idx := indexForInterface m n
        if idx ≠ -1 then [⟨RTA_OIF, rtaLength sizeof_int, int32bytes idx⟩] else []
    let rtl3 := rtl2 + (oifAttrs.map RtAttr.rta_len).sum
    some
      { nlmsg_len := nlmsgLength rtl3
        nlmsg_type := RTM_DELROUTE
        nlmsg_flags := NLM_F_REQUEST
        nlmsg_pid := 0
        rtm_family := target.family
        rtm_table := RT_TABLE_MAIN
        rtm_protocol := RTPROT_STATIC
        rtm_scope := RT_SCOPE_UNIVERSE
        rtm_type := RTN_UNICAST
        rtm_dst_len := target.maskBits
        rtm_src_len := srcLen
        rtm_flags := 0
        attrs := dstAttr :: (gwSrcAttrs ++ oifAttrs) }

/-- The envelope length the spec prescribes for a route request: outer
header plus the fixed `rtmsg` header plus the sum of the RTA_ALIGNed
lengths of every attribute actually appended ("the same alignment padding
between entries ... the envelope length field as the sum of header and all
(aligned) attribute lengths"). -/
def specRouteMsgLen (attrs : List RtAttr) : Nat :=
  NLMSG_HDRLEN + sizeof_rtmsg + (attrs.map (fun a => rtaAlign a.rta_len)).sum

/-! ## `addAddress` and its interface-resolution retry loop -/

/-- Retry bound of the resolution loop in `addAddress`
(`reps < 10`, src/osdep/LinuxNetLink.cpp:853). -/
def addAddressMaxReps : Nat := 10

/-- Sleep between resolution attempts in `addAddress`
(`Thread::sleep(100)`, src/osdep/LinuxNetLink.cpp:854). -/
def addAddressSleepMs : Nat := 100

/-- The `for (int reps = 0; interface_index == -1 && reps < 10; ++reps)`
loop of `addAddress` (src/osdep/LinuxNetLink.cpp:852-856).  `lookups k` is
the value `_indexForInterface(iface)` returns on its `k`-th call (the
cache may be refilled concurrently by the monitor thread, so successive
calls may differ).  `remaining` is `10 - reps`; the result is the final
index together with the number of loop iterations executed — each
iteration sleeps `addAddressSleepMs` before looking up again. -/
def retryGo (lookups : Nat → Int) (idx : Int) (reps remaining : Nat) : Int × Nat :=
  match remaining with
  | 0 => (idx, reps)
  | r + 1 =>
    if idx = -1 then retryGo lookups (lookups (reps + 1)) (reps + 1) r
    else (idx, reps)

/-- Interface resolution of `addAddress`: the initial
`_indexForInterface` call followed by the retry loop. -/
def resolveRetry (lookups : Nat → Int) : Int × Nat :=
  retryGo lookups (lookups 0) 0 addAddressMaxReps

/-- The observable content of a `struct nl_adr_req` as `addAddress`
populates it. -/
structure NlAdrReq where
  nlmsg_len : Nat
  nlmsg_type : Nat
  nlmsg_flags : Nat
  nlmsg_pid : Nat
  ifa_family : Nat
  ifa_prefixlen : Nat
  ifa_flags : Nat
  ifa_scope : Nat
  ifa_index : Int
  attrs : List RtAttr
  deriving DecidableEq

/-- Function `LinuxNetLink::addAddress` (src/osdep/LinuxNetLink.cpp:821-937),
reduced to the request it builds: after the resolution retry loop, `none`
when the interface index is still -1 (the source logs, closes the socket
and returns before any request is constructed or sent, lines 858-862);
otherwise the assembled RTM_NEWADDR request.  Every attribute arm here
carries its `rtl += rtap->rta_len;` in the source (lines 874, 880, 889,
896, 904). -/
def addAddress (addr : InetAddress) (iface : Option String) (lookups : Nat → Int) :
    Option NlAdrReq :=
  let resolved := resolveRetry lookups
  if resolved.1 = -1 then none
  else
    let addrAttrs : List RtAttr :=
      if addr.isV4 then
        let base : List RtAttr :=
          [⟨IFA_ADDRESS, rtaLength sizeof_in_addr, addr.addrBytes⟩,
           ⟨IFA_LOCAL, rtaLength sizeof_in_addr, addr.addrBytes⟩]
        let b := addr.broadcast
        if b.valid then base ++ [⟨IFA_BROADCAST, rtaLength sizeof_in_addr, b.addrBytes⟩]
        else base
      else
        [⟨IFA_ADDRESS, rtaLength sizeof_in6_addr, addr.addrBytes⟩]
    let labelAttrs : List RtAttr :=
      match iface with
      | some n => [⟨IFA_LABEL, rtaLength n.length, n.data.map Char.toNat⟩]
      | none => []
    let attrs := addrAttrs ++ labelAttrs
    let rtl := sizeof_ifaddrmsg + (attrs.map RtAttr.rta_len).sum
    some
      { nlmsg_len := nlmsgLength rtl
        nlmsg_type := RTM_NEWADDR
        nlmsg_flags := NLM_F_REQUEST ||| NLM_F_CREATE ||| NLM_F_EXCL
        nlmsg_pid := 0
        ifa_family := addr.family
        ifa_prefixlen := addr.port
        ifa_flags := IFA_F_PERMANENT
        ifa_scope := 0
        ifa_index := resolved.1
        attrs := attrs }

/-! ## Concrete values used in the scenario theorems -/

/-- 10.0.0.0/24. -/
def ip10_0_0_0_24 : InetAddress := ⟨true, true, [10, 0, 0, 0], 24⟩

/-- 10.0.0.1 (as a gateway or source address). -/
def ip10_0_0_1 : InetAddress := ⟨true, true, [10, 0, 0, 1], 24⟩

/-- An absent / invalid address (`operator bool` is false). -/
def noAddr : InetAddress := ⟨false, true, [], 0⟩

/-- Invariant of the interface cache: every record's `index` field equals
its key, and no key occurs twice. -/
def IfInvariant (m : IfMap) : Prop :=
  (∀ p ∈ m, p.2.index = p.1) ∧ (m.map Prod.fst).Nodup

/-- Resolution oracle on which `_indexForInterface` fails on every call. -/
def alwaysFailLookup : Nat → Int := fun _ => -1

/-- Interface map holding eth0 at index 3. -/
def ifmap_eth0 : IfMap := [(3, ⟨3, "eth0", [0, 0, 0, 0, 0, 0], 1500⟩)]

/-- Cache record for a virtual interface at index 4. -/
def entry_zt0 : IfaceEntry := ⟨4, "zt0", [0, 0, 0, 0, 0, 0], 2800⟩

/-- Cache record for a physical interface at index 7. -/
def entry_eth1 : IfaceEntry := ⟨7, "eth1", [1, 2, 3, 4, 5, 6], 1500⟩

/-- State whose interface cache holds indices 4 and 7. -/
def state_two_ifaces : NetLinkState := ⟨[], [], [(4, entry_zt0), (7, entry_eth1)]⟩

/-- State whose interface cache holds only index 7. -/
def state_one_iface : NetLinkState := ⟨[], [], [(7, entry_eth1)]⟩

/-- Link-added notification re-announcing index 4 with a fresh MAC. -/
def linkmsg_update_zt0 : LinkMsg := ⟨4, "zt0", [2, 17, 34, 51, 68, 85], 1500⟩

/-- Link-removed notification for index 4. -/
def linkmsg_del_zt0 : LinkMsg := ⟨4, "zt0", [0, 0, 0, 0, 0, 0], 0⟩

/-! ## Lemmas about the interface-cache operations -/

theorem htContains_cons_elim {p : Int × IfaceEntry} {t : IfMap} {k : Int}
    (h : htContains (p :: t) k = true) (hp : ¬p.1 = k) : htContains t k = true := by
  rw [htContains, List.any_cons, Bool.or_eq_true, beq_iff_eq] at h
  rcases h with h | h
  · exact absurd h hp
  · exact h

theorem htContains_cons_false {p : Int × IfaceEntry} {t : IfMap} {k : Int}
    (h : htContains (p :: t) k = false) : ¬p.1 = k ∧ htContains t k = false := by
  rw [htContains, List.any_cons] at h
  rw [Bool.or_eq_false_iff] at h
  exact ⟨by simpa using h.1, h.2⟩

theorem htLookup_erase_self (m : IfMap) (k : Int) : htLookup (htErase m k) k = none := by
  induction m with
  | nil => rfl
  | cons p t ih =>
    rw [htErase, List.filter_cons]
    by_cases hp : p.1 = k
    · simp only [hp, beq_self_eq_true, Bool.not_true, Bool.false_eq_true, if_false]
      exact ih
    · have : (!(p.1 == k)) = true := by simp [hp]
      rw [if_pos this, htLookup, if_neg hp]
      exact ih

theorem htLookup_erase_other (m : IfMap) (k j : Int) (h : ¬j = k) :
    htLookup (htErase m k) j = htLookup m j := by
  induction m with
  | nil => rfl
  | cons p t ih =>
    rw [htErase, List.filter_cons]
    by_cases hp : p.1 = k
    · have hpj : ¬p.1 = j := fun e => h (hp ▸ e ▸ rfl)
      simp only [hp, beq_self_eq_true, Bool.not_true, Bool.false_eq_true, if_false]
      rw [htLookup, if_neg hpj]
      exact ih
    · have hcond : (!(p.1 == k)) = true := by simp [hp]
      rw [if_pos hcond]
      by_cases hj : p.1 = j
      · rw [htLookup, if_pos hj, htLookup, if_pos hj]
      · rw [htLookup, if_neg hj, htLookup, if_neg hj]
        exact ih

theorem htContains_false_lookup (m : IfMap) (k : Int) (h : htContains m k = false) :
    htLookup m k = none := by
  induction m with
  | nil => rfl
  | cons p t ih =>
    obtain ⟨h1, h2⟩ := htContains_cons_false h
    rw [htLookup, if_neg h1]
    exact ih h2

theorem htContains_false_not_mem (m : IfMap) (k : Int) (h : htContains m k = false) :
    k ∉ m.map Prod.fst := by
  simp [htContains] at h
  simp only [List.mem_map]
  rintro ⟨p, hp, rfl⟩
  exact (h p.1 p.2 hp) rfl

theorem htLookup_replace_self (m : IfMap) (k : Int) (v : IfaceEntry)
    (hc : htContains m k = true) :
    htLookup (m.map (fun p => if p.1 = k then (k, v) else p)) k = some v := by
  induction m with
  | nil => simp [htContains] at hc
  | cons p t ih =>
    rw [List.map_cons]
    by_cases hp : p.1 = k
    · rw [if_pos hp, htLookup, if_pos rfl]
    · rw [if_neg hp, htLookup, if_neg hp]
      exact ih (htContains_cons_elim hc hp)

theorem htLookup_append_self (m : IfMap) (k : Int) (v : IfaceEntry)
    (hc : htContains m k = false) :
    htLookup (m ++ [(k, v)]) k = some v := by
  induction m with
  | nil => simp [htLookup]
  | cons p t ih =>
    obtain ⟨h1, h2⟩ := htContains_cons_false hc
    rw [List.cons_append, htLookup, if_neg h1]
    exact ih h2

theorem htLookup_set_self (m : IfMap) (k : Int) (v : IfaceEntry) :
    htLookup (htSet m k v) k = some v := by
  unfold htSet
  by_cases hc : htContains m k = true
  · rw [if_pos hc]
    exact htLookup_replace_self m k v hc
  · rw [if_neg hc]
    exact htLookup_append_self m k v (Bool.not_eq_true _ ▸ Bool.eq_false_iff.mpr hc)

theorem map_fst_replace (m : IfMap) (k : Int) (v : IfaceEntry) :
    (m.map (fun p => if p.1 = k then (k, v) else p)).map Prod.fst = m.map Prod.fst := by
  induction m with
  | nil => rfl
  | cons p t ih =>
    by_cases hp : p.1 = k
    · simp [hp, ih]
    · simp [hp, ih]

theorem ifInvariant_htSet (m : IfMap) (k : Int) (v : IfaceEntry)
    (h : IfInvariant m) (hv : v.index = k) : IfInvariant (htSet m k v) := by
  obtain ⟨hidx, hnd⟩ := h
  unfold htSet
  by_cases hc : htContains m k = true
  · rw [if_pos hc]
    constructor
    · intro q hq
      rcases List.mem_map.mp hq with ⟨p, hp, rfl⟩
      by_cases hpk : p.1 = k
      · simp [hpk, hv]
      · simp [hpk]
        exact hidx p hp
    · rw [map_fst_replace]
      exact hnd
  · rw [if_neg hc]
    have hc' : htContains m k = false := by
      simpa using hc
    constructor
    · intro q hq
      rcases List.mem_append.mp hq with hq | hq
      · exact hidx q hq
      · rcases List.mem_singleton.mp hq with rfl
        exact hv
    · rw [List.map_append]
      rw [List.nodup_append]
      refine ⟨hnd, List.nodup_singleton _, ?_⟩
      rw [List.map_singleton, List.disjoint_singleton]
      exact htContains_false_not_mem m k hc'

theorem ifInvariant_htErase (m : IfMap) (k : Int) (h : IfInvariant m) :
    IfInvariant (htErase m k) := by
  obtain ⟨hidx, hnd⟩ := h
  constructor
  · intro q hq
    exact hidx q (List.mem_of_mem_filter hq)
  · exact List.Nodup.sublist (List.Sublist.map _ (List.filter_sublist m)) hnd

theorem retryGo_exhaust (lookups : Nat → Int) :
    ∀ remaining reps, (∀ k, k ≤ reps + remaining → lookups k = -1) →
      retryGo lookups (-1) reps remaining = (-1, reps + remaining) := by
  intro remaining
  induction remaining with
  | zero => intro reps _; rfl
  | succ r ih =>
    intro reps h
    rw [retryGo]
    rw [if_pos rfl]
    rw [h (reps + 1) (by omega)]
    rw [ih (reps + 1) (fun k hk => h k (by omega))]
    have harith : reps + 1 + r = reps + (r + 1) := by omega
    rw [harith]

/-! ## Claim theorems -/

/-- C1: the claim says every copy of a kernel-supplied name into a
fixed-capacity field is bounded by the destination capacity.  The code is
wrong: `_linkAdded` copies `strlen(ptr)` bytes of the IFLA_IFNAME payload
into `char ifname[IFNAMSIZ]`, so a 17-byte NUL-terminated name writes 17
bytes into the 16-byte buffer — the copy length exceeds the capacity
instead of being truncated to it. -/
theorem linkAdded_ifname_copy_overflows :
    (linkAddedIfnameBuf (List.replicate 17 97 ++ [0])).length = 17
      ∧ IFNAMSIZ < (linkAddedIfnameBuf (List.replicate 17 97 ++ [0])).length := by
  constructor
  · rfl
  · decide

/-- C2: the claim says the transaction receive loop keeps receiving on a
multi-part frame and decodes the whole accumulated range (including the
done frame) when the done frame arrives.  The code is wrong: on the
two-datagram dump reply (a 64-byte NLM_F_MULTI fragment followed by a
16-byte NLMSG_DONE frame) `_doRecv` performs exactly one receive, passes
`_processMessage` the first fragment with a double-counted length
(128 = 2 x 64), and never reads the done frame; moreover no input makes
the loop receive a second time. -/
theorem doRecv_single_recv_no_accumulation :
    doRecv [⟨RTM_NEWROUTE, NLM_F_MULTI, 64⟩, ⟨NLMSG_DONE, NLM_F_MULTI, 16⟩]
        = { recvCalls := 1, processed := some (0, 128) }
      ∧ ∀ (chunks : List Chunk) (p nll : Nat), (doRecvGo chunks p nll).recvCalls ≤ 1 := by
  constructor
  · rfl
  · intro chunks p nll
    cases chunks with
    | nil => simp [doRecvGo]
    | cons c rest =>
      rw [doRecvGo]
      split
      · exact Nat.le_refl 1
      · split
        · exact Nat.le_refl 1
        · split
          · exact Nat.le_refl 1
          · split <;> split <;> exact Nat.le_refl 1

/-- C3: the claim says the outer length field equals the fixed family
header plus the sum of the aligned lengths of all attributes actually
appended.  The code is wrong: in `addRoute(10.0.0.0/24, via = absent,
src = 10.0.0.1/24, iface = NULL)` the RTA_SRC branch appends an 8-byte
attribute but omits `rtl += rtap->rta_len`, so the built message declares
`nlmsg_len = 36` while header plus aligned appended attributes is 44. -/
theorem addRoute_envelope_omits_src_length :
    (addRoute ip10_0_0_0_24 noAddr ip10_0_0_1 none []).map
        (fun r => (r.nlmsg_len, specRouteMsgLen r.attrs)) = some (36, 44)
      ∧ (36 : Nat) ≠ 44 := by
  constructor
  · rfl
  · decide

/-- C4: `addRoute` with destination 10.0.0.0/24, gateway 10.0.0.1, source
absent and interface eth0 resolving to index `k` builds exactly the
attribute stream DST = 10.0.0.0, GATEWAY = 10.0.0.1, OIF = k with
destination prefix length 24 and no RTA_SRC; and in general, whenever the
gateway is valid, no RTA_SRC attribute appears in the request, even if a
source is also given. -/
theorem addRoute_gateway_wins (m : IfMap) (k : Int)
    (h1 : indexForInterface m "eth0" = k) (h2 : k ≠ -1) :
    ((addRoute ip10_0_0_0_24 ip10_0_0_1 noAddr (some "eth0") m).map
        (fun r => (r.attrs, r.rtm_dst_len)))
      = some ([⟨RTA_DST, 8, [10, 0, 0, 0]⟩, ⟨RTA_GATEWAY, 8, [10, 0, 0, 1]⟩,
               ⟨RTA_OIF, 8, int32bytes k⟩], 24)
    ∧ ∀ (t v s : InetAddress) (ifn : Option String) (m' : IfMap) (r : NlRouteReq),
        v.valid = true → addRoute t v s ifn m' = some r →
          RTA_SRC ∉ r.attrs.map RtAttr.rta_type := by
  constructor
  · simp [addRoute, ip10_0_0_0_24, ip10_0_0_1, noAddr, h1, h2, rtaLength,
      sizeof_in_addr, sizeof_int]
  · intro t v s ifn m' r hv hr
    unfold addRoute at hr
    split at hr
    · exact absurd hr (by simp)
    · rw [Option.some_inj] at hr
      subst hr
      intro hmem
      simp only [hv, if_true, List.map_cons, List.map_append, List.mem_cons,
        List.mem_append, apply_ite RtAttr.rta_type, ite_self, List.map_nil,
        List.mem_singleton, List.not_mem_nil, or_false] at hmem
      rcases ifn with _ | n
      · simp only [List.map_nil, List.not_mem_nil, or_false] at hmem
        revert hmem
        decide
      · split at hmem
        · revert hmem
          decide
        · split at hmem
          · simp only [List.map_cons, List.map_nil, List.mem_singleton] at hmem
            revert hmem
            decide
          · simp only [List.map_nil, List.not_mem_nil, or_false] at hmem
            revert hmem
            decide

/-- C4 witness: the concrete scenario at a cache mapping eth0 to index 3. -/
theorem addRoute_gateway_wins_check :
    ((addRoute ip10_0_0_0_24 ip10_0_0_1 noAddr (some "eth0") ifmap_eth0).map
        (fun r => (r.attrs, r.rtm_dst_len)))
      = some ([⟨RTA_DST, 8, [10, 0, 0, 0]⟩, ⟨RTA_GATEWAY, 8, [10, 0, 0, 1]⟩,
               ⟨RTA_OIF, 8, int32bytes 3⟩], 24) :=
  (addRoute_gateway_wins ifmap_eth0 3 rfl (by decide)).1

/-- C5 counterexample: the claim says the process is terminated only when
the initial monitor-socket bind at construction fails, and lists
allocation failure inside the receive path among the logged-and-return
failures; but the code calls `::exit(1)` when `valloc` fails in `_doRecv`
(src/osdep/LinuxNetLink.cpp:106-110), a failure site distinct from the
constructor bind. -/
theorem recvAlloc_failure_exits_process :
    failureAction .recvAlloc = .exitProcess
      ∧ FailureSite.recvAlloc ≠ FailureSite.constructorBind := by
  constructor
  · rfl
  · decide

/-- C5 (amended): the process is terminated exactly when the initial
monitor-socket bind at construction fails or when the receive-path buffer
allocation fails; every other failure site logs and returns / continues
with the process still running. -/
theorem fatal_exits_characterization (f : FailureSite) :
    failureAction f = .exitProcess ↔ (f = .constructorBind ∨ f = .recvAlloc) := by
  cases f <;> decide

/-- C6: when the interface name resolves on none of the lookup attempts,
`addAddress` retries the lookup up to the configured `addAddressMaxReps =
10` times, each retry preceded by a sleep of `addAddressSleepMs = 100`
milliseconds, and once exhausted it returns without building or sending
any request (result `none`); the retry loop reports 10 executed
iterations. -/
theorem addAddress_retry_exhaustion (addr : InetAddress) (iface : Option String)
    (lookups : Nat → Int) (h : ∀ k, k ≤ 10 → lookups k = -1) :
    addAddress addr iface lookups = none
      ∧ (resolveRetry lookups).2 = 10
      ∧ addAddressMaxReps = 10 ∧ addAddressSleepMs = 100 := by
  have hres : resolveRetry lookups = (-1, 10) := by
    unfold resolveRetry addAddressMaxReps
    rw [h 0 (by omega)]
    have := retryGo_exhaust lookups 10 0 (fun k hk => h k (by omega))
    simpa using this
  refine ⟨?_, by rw [hres], rfl, rfl⟩
  unfold addAddress
  rw [hres]
  rfl

/-- C6 witness: a lookup oracle that always fails. -/
theorem addAddress_retry_exhaustion_check :
    addAddress ip10_0_0_0_24 (some "zt0") alwaysFailLookup = none
      ∧ (resolveRetry alwaysFailLookup).2 = 10
      ∧ addAddressMaxReps = 10 ∧ addAddressSleepMs = 100 :=
  addAddress_retry_exhaustion ip10_0_0_0_24 (some "zt0") alwaysFailLookup
    (fun _ _ => rfl)

/-- C7: dispatching a route-added or route-deleted notification leaves the
IPv4 route collection, the IPv6 route collection and the interface map
unchanged — the handlers only decode (for logging) and never fold the
notification into the caches. -/
theorem route_notifications_leave_caches_unchanged (s : NetLinkState) (rm : RouteMsg) :
    ((processMessage s (.newroute rm)).routes_ipv4 = s.routes_ipv4
      ∧ (processMessage s (.newroute rm)).routes_ipv6 = s.routes_ipv6
      ∧ (processMessage s (.newroute rm)).interfaces = s.interfaces)
    ∧ ((processMessage s (.delroute rm)).routes_ipv4 = s.routes_ipv4
      ∧ (processMessage s (.delroute rm)).routes_ipv6 = s.routes_ipv6
      ∧ (processMessage s (.delroute rm)).interfaces = s.interfaces) :=
  ⟨⟨rfl, rfl, rfl⟩, ⟨rfl, rfl, rfl⟩⟩

/-- C8: dispatching a link-removed notification for index `i` removes
exactly the record keyed `i`: afterwards `i` has no record, every other
key reads unchanged, and when `i` was absent the whole map is unchanged. -/
theorem linkDeleted_removes_exactly_key (s : NetLinkState) (lm : LinkMsg) :
    htLookup (processMessage s (.dellink lm)).interfaces lm.ifi_index = none
      ∧ (∀ j : Int, ¬j = lm.ifi_index →
          htLookup (processMessage s (.dellink lm)).interfaces j
            = htLookup s.interfaces j)
      ∧ (htContains s.interfaces lm.ifi_index = false →
          (processMessage s (.dellink lm)).interfaces = s.interfaces) := by
  have hrepr : (processMessage s (.dellink lm)).interfaces = linkDeleted s.interfaces lm := rfl
  rw [hrepr]
  unfold linkDeleted
  by_cases hc : htContains s.interfaces lm.ifi_index = true
  · rw [if_pos hc]
    refine ⟨htLookup_erase_self _ _, fun j hj => htLookup_erase_other _ _ _ hj, fun hf => ?_⟩
    rw [hc] at hf
    exact absurd hf (by simp)
  · rw [if_neg hc]
    have hc' : htContains s.interfaces lm.ifi_index = false := by simpa using hc
    exact ⟨htContains_false_lookup _ _ hc', fun j _ => rfl, fun _ => rfl⟩

/-- C8 witness: deleting index 4 from a cache holding indices 4 and 7
removes 4 and leaves 7 unchanged; deleting index 4 from a cache without it
leaves the map unchanged. -/
theorem linkDeleted_removes_exactly_key_check :
    htLookup (processMessage state_two_ifaces (.dellink linkmsg_del_zt0)).interfaces 4 = none
      ∧ htLookup (processMessage state_two_ifaces (.dellink linkmsg_del_zt0)).interfaces 7
          = htLookup state_two_ifaces.interfaces 7
      ∧ (processMessage state_one_iface (.dellink linkmsg_del_zt0)).interfaces
          = state_one_iface.interfaces :=
  ⟨(linkDeleted_removes_exactly_key state_two_ifaces linkmsg_del_zt0).1,
   (linkDeleted_removes_exactly_key state_two_ifaces linkmsg_del_zt0).2.1 7 (by decide),
   (linkDeleted_removes_exactly_key state_one_iface linkmsg_del_zt0).2.2 (by decide)⟩

/-- C9: the interface cache keeps at most one record per index with every
record's index field equal to its key — the invariant is preserved by the
dispatch of every notification — and a link-added notification for an
index already present overwrites that record's fields in place (same map
size, lookup returns the fresh name/MAC/MTU) instead of inserting a
duplicate. -/
theorem iface_cache_invariant_preserved (s : NetLinkState) (msg : NlMsg)
    (h : IfInvariant s.interfaces) :
    IfInvariant (processMessage s msg).interfaces
      ∧ ∀ lm : LinkMsg, htContains s.interfaces lm.ifi_index = true →
          ((processMessage s (.newlink lm)).interfaces.length = s.interfaces.length
            ∧ htLookup (processMessage s (.newlink lm)).interfaces lm.ifi_index
                = some ⟨lm.ifi_index, lm.ifname, lm.mac_bin, lm.mtu⟩) := by
  constructor
  · cases msg with
    | newlink lm => exact ifInvariant_htSet _ _ _ h rfl
    | dellink lm =>
      show IfInvariant (linkDeleted s.interfaces lm)
      unfold linkDeleted
      by_cases hc : htContains s.interfaces lm.ifi_index = true
      · rw [if_pos hc]
        exact ifInvariant_htErase _ _ h
      · rw [if_neg hc]
        exact h
    | newaddr am => exact h
    | deladdr am => exact h
    | newroute rm => exact h
    | delroute rm => exact h
    | other => exact h
  · intro lm hc
    constructor
    · show (linkAdded s.interfaces lm).length = s.interfaces.length
      unfold linkAdded htSet
      rw [if_pos hc, List.length_map]
    · exact htLookup_set_self _ _ _

/-- C9 witness: re-announcing index 4 over a cache holding indices 4 and 7
preserves the invariant and keeps the map size at two entries. -/
theorem iface_cache_invariant_preserved_check :
    IfInvariant (processMessage state_two_ifaces (.newlink linkmsg_update_zt0)).interfaces
      ∧ (processMessage state_two_ifaces (.newlink linkmsg_update_zt0)).interfaces.length
          = state_two_ifaces.interfaces.length :=
  ⟨(iface_cache_invariant_preserved state_two_ifaces (.newlink linkmsg_update_zt0)
      (by constructor <;> decide)).1,
   ((iface_cache_invariant_preserved state_two_ifaces (.newlink linkmsg_update_zt0)
      (by constructor <;> decide)).2 linkmsg_update_zt0 (by decide)).1⟩

/-- C10: for identical arguments `delRoute` builds the same request as
`addRoute` — same attribute stream and same fixed route header — differing
only in the message type (RTM_DELROUTE instead of RTM_NEWROUTE) and the
flags (NLM_F_REQUEST alone, without NLM_F_CREATE / NLM_F_EXCL /
NLM_F_ACK). -/
theorem delRoute_matches_addRoute (t v s : InetAddress) (ifn : Option String) (m : IfMap) :
    delRoute t v s ifn m
      = (addRoute t v s ifn m).map
          (fun r => { r with nlmsg_type := RTM_DELROUTE, nlmsg_flags := NLM_F_REQUEST }) := by
  unfold delRoute addRoute
  cases h : t.valid <;> simp

end InfinityTier
